import Mathlib

/-!
Verification of the ADW (AI Developer Workflow) engine of this repository.

The definitions below are shallow embeddings of the Python sources:
  * `adws/adw_modules/agent.py` — JSONL output parsing, `get_claude_env`,
    `prompt_claude_code`;
  * `adws/adw_review.py` — `resolve_review_issues` and the review/resolution
    retry loop of `main`, together with the tail sequence (commit, push,
    save, stdout, exit code);
  * the pipeline composer scripts `adw_sdlc.py`, `adw_plan_build_test.py`,
    `adw_plan_build_review.py`, `adw_plan_build_document.py` and
    `adw_plan_build_test_review.py`;
  * the missing-state prologue of `adw_review.py` / `adw_document.py`.

External collaborators (the agent CLI process, git, the issue tracker, the
line-level JSON parser, the state store) are passed in as explicit oracle
parameters, so every function here is a pure, executable translation of the
control flow actually present in the source.
-/

namespace Tac6

/-! ### JSON value model for agent output records

`agent.py` feeds each JSONL line to `json.loads` and then only ever calls
`.get` with the scalar fields `type`, `session_id`, `is_error`, `subtype`
and `result`.  `json.loads` may return a dict — the only Python value with
a `.get` method here — or any non-object JSON value (a number, string,
boolean, null or array), on which `.get` raises `AttributeError`.  A dict
is modelled as an association list of scalar JSON values; a non-object
value is modelled by the `PyJson.nondict` constructor, whose payload
stands in for the parsed value (its only relevant behaviour in this module
is that `.get` raises on it).  The line-level parser itself is kept
abstract as a function `String → Option PyJson` (`none` =
`json.JSONDecodeError`). -/

inductive JVal where
  | jnull
  | jbool (b : Bool)
  | jnum (n : Int)
  | jstr (s : String)
  deriving DecidableEq, Repr

structure JsonObj where
  entries : List (String × JVal)
  deriving DecidableEq, Repr

def JsonObj.get (o : JsonObj) (k : String) : Option JVal :=
  o.entries.lookup k

inductive PyJson where
  | dict (o : JsonObj)
  | nondict (v : JVal)
  deriving DecidableEq, Repr

/-- Python truthiness of the scalar JSON values, as used by
`result_message.get("is_error", False)` followed by `not is_error`. -/
def truthy : JVal → Bool
  | .jnull => false
  | .jbool b => b
  | .jnum n => n != 0
  | .jstr s => s != ""

/-! ### `parse_jsonl_output` (agent.py lines 39-78)

The file content is `some c` when the file is readable and `none` when
opening/reading raises (the outer `except` returns `([], None)`).  Each
stripped non-empty line is fed to the abstract line parser; lines that fail
to parse are skipped, but lines parsing to non-object JSON values ARE kept
in `messages`.  The terminal record is then sought by scanning `messages`
in reverse: `message.get("type")` either finds the first (from the end)
dict typed `"result"`, or raises `AttributeError` at the first non-dict
value it meets — an exception the outer `except Exception` also catches,
so a perfectly readable file can yield `([], None)`. -/

/-- `content.split("\n")`: split a string at every newline, keeping empty
segments, as Python `str.split` does. -/
def splitLinesAux : List Char → List Char → List String
  | [], acc => [String.mk acc.reverse]
  | c :: rest, acc =>
    if c = '\n' then String.mk acc.reverse :: splitLinesAux rest []
    else splitLinesAux rest (c :: acc)

def splitLines (s : String) : List String := splitLinesAux s.data []

/-- `line.strip()`: drop whitespace from both ends. -/
def stripChars (l : List Char) : List Char :=
  ((l.dropWhile Char.isWhitespace).reverse.dropWhile Char.isWhitespace).reverse

def pyStrip (s : String) : String := String.mk (stripChars s.data)

/-- The `for message in reversed(messages)` scan: a dict typed `"result"`
ends the scan with that record, a non-dict value raises `AttributeError`
(modelled as `Except.error`), and an exhausted scan leaves the result
`None`. -/
def scanForResult : List PyJson → Except String (Option JsonObj)
  | [] => .ok none
  | .dict o :: rest =>
    if o.get "type" == some (JVal.jstr "result") then .ok (some o)
    else scanForResult rest
  | .nondict _ :: _ => .error "AttributeError"

/-- The `messages` list: successfully parsed JSON values of the stripped
non-blank lines, in file order. -/
def messagesOf (parseLine : String → Option PyJson) (c : String) : List PyJson :=
  (((splitLines c).map (fun l => pyStrip l)).filter (fun l => l != "")).filterMap
    parseLine

def parse_jsonl_output (parseLine : String → Option PyJson) (content : Option String) :
    List PyJson × Option JsonObj :=
  match content with
  | none => ([], none)
  | some c =>
    let messages := messagesOf parseLine c
    match scanForResult messages.reverse with
    | .ok result => (messages, result)
    | .error _ => ([], none)

/-- A parsed value the reverse scan steps over without stopping: a dict
whose `type` field is not `"result"`. -/
def isNonResultDict : PyJson → Bool
  | .dict o => !(o.get "type" == some (JVal.jstr "result"))
  | .nondict _ => false

theorem scanForResult_skip (l rest : List PyJson)
    (h : ∀ x ∈ l, isNonResultDict x = true) :
    scanForResult (l ++ rest) = scanForResult rest := by
  induction l with
  | nil => rfl
  | cons a t ih =>
    have ha := h a (List.mem_cons_self a t)
    have ht : ∀ x ∈ t, isNonResultDict x = true :=
      fun x hx => h x (List.mem_cons_of_mem a hx)
    cases a with
    | dict o =>
      simp only [isNonResultDict, Bool.not_eq_true'] at ha
      simp [scanForResult, ha, ih ht]
    | nondict v => simp [isNonResultDict] at ha

/-! ### `prompt_claude_code` (agent.py lines 172-283)

The external world is abstracted by three oracles: the result of
`check_claude_installed` (`none` when the CLI resolves, `some msg`
otherwise), the outcome of the `subprocess.run` call together with the
content the child wrote to the output file, and the line-level JSON parser.
The `subprocess.run` call in the source passes no `timeout=` argument, so
the `TimeoutExpired` handler is kept as an explicit (unreachable in
practice) outcome constructor. -/

inductive ProcOutcome where
  | completed (returncode : Nat) (stderr : String) (fileContent : String)
  | timedOut
  | raised (msg : String)
  deriving DecidableEq, Repr

structure AgentPromptResponse where
  output : JVal
  success : Bool
  session_id : Option JVal
  deriving DecidableEq, Repr

/-- Error-message selection of the non-zero-exit branch (agent.py 261-274). -/
def claude_error_message (rc : Nat) (stderr : String) : String :=
  if rc = 3221226505 ∨ rc = 3221225477 then
    "Claude Code CLI crashed with fatal error (code: " ++ toString rc ++
      "). This is a critical error that cannot be automatically resolved."
  else if stderr != "" then "Claude Code error: " ++ stderr
  else "Claude Code failed with exit code " ++ toString rc ++
    " (no error message available)"

def prompt_claude_code (installErr : Option String) (outcome : ProcOutcome)
    (parseLine : String → Option PyJson) : AgentPromptResponse :=
  match installErr with
  | some msg => ⟨JVal.jstr msg, false, none⟩
  | none =>
    match outcome with
    | .completed rc stderr content =>
      if rc = 0 then
        match (parse_jsonl_output parseLine (some content)).2 with
        | some rm =>
          let sid := rm.get "session_id"
          let is_error := truthy ((rm.get "is_error").getD (JVal.jbool false))
          let subtype := (rm.get "subtype").getD (JVal.jstr "")
          if subtype = JVal.jstr "error_during_execution" then
            ⟨JVal.jstr "Error during execution: Agent encountered an error and did not return a result",
              false, sid⟩
          else
            ⟨(rm.get "result").getD (JVal.jstr ""), !is_error, sid⟩
        | none => ⟨JVal.jstr content, true, none⟩
      else
        ⟨JVal.jstr (claude_error_message rc stderr), false, none⟩
    | .timedOut =>
      ⟨JVal.jstr "Error: Claude Code command timed out after 5 minutes", false, none⟩
    | .raised msg =>
      ⟨JVal.jstr ("Error executing Claude Code: " ++ msg), false, none⟩

/-- The failure condition of the adapter as the amended specification words
it: not installed, exception, timeout, non-zero exit, or a terminal result
record that itself signals an error; an exit-zero run for which the parse
step yields no terminal result record — including when the scan over the
parsed values collapses on a trailing non-object line — is NOT a
failure. -/
def promptFailsSpec (installErr : Option String) (outcome : ProcOutcome)
    (parseLine : String → Option PyJson) : Bool :=
  installErr.isSome ||
  (match outcome with
   | .timedOut => true
   | .raised _ => true
   | .completed rc _ content =>
     if rc ≠ 0 then true
     else
       match (parse_jsonl_output parseLine (some content)).2 with
       | none => false
       | some rm =>
         if (rm.get "subtype").getD (JVal.jstr "") = JVal.jstr "error_during_execution" then
           true
         else truthy ((rm.get "is_error").getD (JVal.jbool false)))

/-! ### `get_claude_env` (agent.py lines 104-138)

The parent process environment is a partial map from variable names to
values; `os.getenv(k)` is truthy exactly when the variable is set to a
non-empty string. -/

def envSet (e : String → Option String) (k v : String) : String → Option String :=
  fun x => if x = k then some v else e x

/-- `if os.getenv(K): env[K] = os.getenv(K)` — re-assert a variable from the
parent when it is set and non-empty. -/
def setIfTruthy (e parent : String → Option String) (k : String) :
    String → Option String :=
  match parent k with
  | some v => if v != "" then envSet e k v else e
  | none => e

def get_claude_env (parent : String → Option String) : String → Option String :=
  let env := parent
  let env := setIfTruthy env parent "ANTHROPIC_API_KEY"
  let env := setIfTruthy env parent "CLAUDE_CODE_PATH"
  let env := setIfTruthy env parent "CLAUDE_BASH_MAINTAIN_PROJECT_WORKING_DIR"
  let env := setIfTruthy env parent "E2B_API_KEY"
  match parent "GITHUB_PAT" with
  | some pat =>
    if pat != "" then envSet (envSet env "GITHUB_PAT" pat) "GH_TOKEN" pat else env
  | none => env

theorem setIfTruthy_apply (e parent : String → Option String) (k x : String)
    (he : e x = parent x) : setIfTruthy e parent k x = parent x := by
  unfold setIfTruthy
  cases hpk : parent k with
  | none => exact he
  | some v =>
    by_cases hv : v != ""
    · simp only [hv, if_true]
      unfold envSet
      by_cases hxk : x = k
      · subst hxk
        rw [hpk] at *
        simp at hv ⊢
      · simp [hxk, he]
    · simp [hv, he]

/-- A parent environment holding one unrelated secret variable. -/
def leakParent : String → Option String :=
  fun k => if k = "UNRELATED_SECRET" then some "leak" else none

/-- A line parser that fails on every line (so no record, in particular no
terminal result record, is ever produced). -/
def cParseNone : String → Option PyJson := fun _ => none

/-- A terminal result record: a JSON object whose `type` is `"result"`. -/
def cResultRecord : JsonObj := ⟨[("type", JVal.jstr "result")]⟩

/-- A line parser recognising exactly the two lines of the C8
counterexample file: a result-typed object line and the bare number 42. -/
def cParseTwoLines : String → Option PyJson := fun l =>
  if l = "\x7b\"type\": \"result\"\x7d" then some (PyJson.dict cResultRecord)
  else if l = "42" then some (PyJson.nondict (JVal.jnum 42))
  else none

/-- C8 counterexample: the readable two-line file whose first line is a
result-typed JSON object and whose second line is the bare number `42`.
Both lines parse successfully (second conjunct), so the claim requires the
parsed records in order with the object as terminal result record; but the
reverse scan meets the non-object `42` first, its `.get` raises, and the
outer handler returns `([], none)` (first conjunct). -/
theorem c8_counterexample :
    parse_jsonl_output cParseTwoLines (some "\x7b\"type\": \"result\"\x7d\n42")
        = ([], none)
    ∧ messagesOf cParseTwoLines "\x7b\"type\": \"result\"\x7d\n42"
        = [PyJson.dict cResultRecord, PyJson.nondict (JVal.jnum 42)] :=
  ⟨rfl, rfl⟩

/-- C8 (amended): an unreadable file yields `([], none)`; for a readable
file, `messages` collects the successfully parsed JSON values of the
stripped non-blank lines in order (unparseable lines skipped), and the
reverse scan determines the outcome: if the last result-typed object is
followed only by non-result objects, the call returns `messages` with that
record; if a non-object value occurs after the last result-typed object
(or anywhere when there is none), the `.get` AttributeError is caught by
the outer handler and the call returns `([], none)` despite the readable
file; if every value is a non-result object, the call returns `messages`
with no result record. -/
theorem c8_amended_scan_semantics (parseLine : String → Option PyJson)
    (c : String) :
    parse_jsonl_output parseLine none = ([], none)
    ∧ (∀ (pre post : List PyJson) (o : JsonObj),
        messagesOf parseLine c = pre ++ PyJson.dict o :: post →
        (o.get "type" == some (JVal.jstr "result")) = true →
        (∀ x ∈ post, isNonResultDict x = true) →
        parse_jsonl_output parseLine (some c) = (messagesOf parseLine c, some o))
    ∧ (∀ (pre post : List PyJson) (v : JVal),
        messagesOf parseLine c = pre ++ PyJson.nondict v :: post →
        (∀ x ∈ post, isNonResultDict x = true) →
        parse_jsonl_output parseLine (some c) = ([], none))
    ∧ ((∀ x ∈ messagesOf parseLine c, isNonResultDict x = true) →
        parse_jsonl_output parseLine (some c) = (messagesOf parseLine c, none)) := by
  refine ⟨rfl, ?_, ?_, ?_⟩
  · intro pre post o hdecomp htype hpost
    have hscan : scanForResult (messagesOf parseLine c).reverse = .ok (some o) := by
      rw [hdecomp]
      rw [show (pre ++ PyJson.dict o :: post).reverse
            = post.reverse ++ PyJson.dict o :: pre.reverse by simp]
      rw [scanForResult_skip _ _ (fun x hx => hpost x (List.mem_reverse.mp hx))]
      simp [scanForResult, htype]
    simp [parse_jsonl_output, hscan]
  · intro pre post v hdecomp hpost
    have hscan : scanForResult (messagesOf parseLine c).reverse
        = .error "AttributeError" := by
      rw [hdecomp]
      rw [show (pre ++ PyJson.nondict v :: post).reverse
            = post.reverse ++ PyJson.nondict v :: pre.reverse by simp]
      rw [scanForResult_skip _ _ (fun x hx => hpost x (List.mem_reverse.mp hx))]
      rfl
    simp [parse_jsonl_output, hscan]
  · intro hall
    have hscan : scanForResult (messagesOf parseLine c).reverse = .ok none := by
      have h := scanForResult_skip (messagesOf parseLine c).reverse []
        (fun x hx => hall x (List.mem_reverse.mp hx))
      simpa using h
    simp [parse_jsonl_output, hscan]

/-- C8 amended witness: a one-line file holding only the result-typed
object — the scan finds it with no non-object value in the way. -/
theorem c8_amended_scan_semantics_witness :
    parse_jsonl_output cParseTwoLines (some "\x7b\"type\": \"result\"\x7d")
      = ([PyJson.dict cResultRecord], some cResultRecord) :=
  (c8_amended_scan_semantics cParseTwoLines "\x7b\"type\": \"result\"\x7d").2.1
    [] [] cResultRecord rfl rfl (by simp)

/-- C4 counterexample: the agent CLI resolves, the process exits zero, and
the output file contains no terminal `result` record — the claim requires
`success = false`, but `prompt_claude_code` returns the raw output with
`success = true`. -/
theorem c4_counterexample :
    (parse_jsonl_output cParseNone (some "")).2 = none
    ∧ (prompt_claude_code none (ProcOutcome.completed 0 "" "") cParseNone).success
        = true := ⟨rfl, rfl⟩

/-- C4 (amended): `prompt_claude_code` returns `success = false` exactly
when the CLI is not installed, the process raises or (hypothetically) times
out, the process exits non-zero, or a terminal result record exists and
itself signals an error (`subtype = "error_during_execution"` or a truthy
`is_error`); when the process exits zero and no terminal result record
exists, the raw output is returned with `success = true`. -/
theorem c4_amended_success_characterisation (installErr : Option String)
    (outcome : ProcOutcome) (parseLine : String → Option PyJson) :
    (prompt_claude_code installErr outcome parseLine).success
      = !promptFailsSpec installErr outcome parseLine := by
  cases installErr with
  | some msg => rfl
  | none =>
    cases outcome with
    | timedOut => rfl
    | raised msg => rfl
    | completed rc stderr content =>
      by_cases hrc : rc = 0
      · subst hrc
        simp only [prompt_claude_code, promptFailsSpec, if_pos rfl]
        cases hpr : (parse_jsonl_output parseLine (some content)).2 with
        | none => simp
        | some rm =>
          by_cases hsub :
              (rm.get "subtype").getD (JVal.jstr "") = JVal.jstr "error_during_execution"
          · simp [hsub]
          · simp [hsub]
      · simp [prompt_claude_code, promptFailsSpec, hrc]

/-- C6 counterexample: `get_claude_env` forwards a parent variable that is
not among the deliberately scoped set (executable path, vendor credentials,
working-directory hint, GitHub tokens) to the child environment. -/
theorem c6_counterexample :
    get_claude_env leakParent "UNRELATED_SECRET" = some "leak"
    ∧ "UNRELATED_SECRET" ∉
        ["CLAUDE_CODE_PATH", "ANTHROPIC_API_KEY",
         "CLAUDE_BASH_MAINTAIN_PROJECT_WORKING_DIR", "E2B_API_KEY",
         "GITHUB_PAT", "GH_TOKEN"] := by
  exact ⟨rfl, by decide⟩

/-- C6 (amended): `get_claude_env` starts from a full copy of the parent
environment and forwards every parent variable unchanged; the only
semantic change is that `GH_TOKEN` is set to the value of `GITHUB_PAT`
whenever `GITHUB_PAT` is set and non-empty (the remaining assignments
re-assert parent values). -/
theorem c6_amended_env_is_parent_plus_gh_token
    (parent : String → Option String) (k : String) :
    get_claude_env parent k =
      (match parent "GITHUB_PAT" with
       | some pat => if pat != "" ∧ k = "GH_TOKEN" then some pat else parent k
       | none => parent k) := by
  unfold get_claude_env
  have h4 : setIfTruthy
      (setIfTruthy
        (setIfTruthy (setIfTruthy parent parent "ANTHROPIC_API_KEY") parent
          "CLAUDE_CODE_PATH") parent "CLAUDE_BASH_MAINTAIN_PROJECT_WORKING_DIR")
      parent "E2B_API_KEY" k = parent k := by
    refine setIfTruthy_apply _ _ _ _ ?_
    refine setIfTruthy_apply _ _ _ _ ?_
    refine setIfTruthy_apply _ _ _ _ ?_
    exact setIfTruthy_apply _ _ _ _ rfl
  cases hpat : parent "GITHUB_PAT" with
  | none => simpa using h4
  | some pat =>
    by_cases hne : pat != ""
    · simp only [hne, if_true]
      unfold envSet
      by_cases hk : k = "GH_TOKEN"
      · simp [hk, hne]
      · by_cases hk2 : k = "GITHUB_PAT"
        · subst hk2
          simp [hk, hne, hpat]
        · simp [hk, hk2, hne, h4]
    · simp only [hne, if_false]
      simp only [Bool.not_eq_true] at hne
      simp [hne, h4]

/-! ### Pipeline composers

Each composer script launches the stage scripts as child processes in a
fixed order; the exit code of each child is an oracle `codes : Stage → Nat`.
A composer run is summarised by the list of stages actually launched and
the composer's own exit code (0 = fell through to the end, 1 = `sys.exit(1)`).

`adw_sdlc.py`, `adw_plan_build_test.py`, `adw_plan_build_review.py` and
`adw_plan_build_document.py` all follow the same shape — run a stage, exit 1
if its return code is non-zero, else continue — captured by `runChain`.

`adw_plan_build_test_review.py` is different: after plan and build (which do
short-circuit), a failing test phase only logs a warning and the script
continues into its inline review/finalization phase and falls off the end
(exit 0). -/

inductive Stage where
  | plan | build | test | review | document
  deriving DecidableEq, Repr

def runChain (codes : Stage → Nat) : List Stage → List Stage × Nat
  | [] => ([], 0)
  | s :: rest =>
    if codes s ≠ 0 then ([s], 1)
    else
      let r := runChain codes rest
      (s :: r.1, r.2)

def adw_sdlc (codes : Stage → Nat) : List Stage × Nat :=
  runChain codes [Stage.plan, Stage.build, Stage.test, Stage.review, Stage.document]

def adw_plan_build_test (codes : Stage → Nat) : List Stage × Nat :=
  runChain codes [Stage.plan, Stage.build, Stage.test]

def adw_plan_build_review (codes : Stage → Nat) : List Stage × Nat :=
  runChain codes [Stage.plan, Stage.build, Stage.review]

def adw_plan_build_document (codes : Stage → Nat) : List Stage × Nat :=
  runChain codes [Stage.plan, Stage.build, Stage.document]

def adw_plan_build_test_review (codes : Stage → Nat) : List Stage × Nat :=
  if codes Stage.plan ≠ 0 then ([Stage.plan], 1)
  else if codes Stage.build ≠ 0 then ([Stage.plan, Stage.build], 1)
  else ([Stage.plan, Stage.build, Stage.test, Stage.review], 0)

/-- A chain composer launches exactly the stages up to and including the
first failing one, and exits 1. -/
theorem runChain_first_fail (codes : Stage → Nat) (s : Stage)
    (pre post : List Stage) (hpre : ∀ t ∈ pre, codes t = 0) (hs : codes s ≠ 0) :
    runChain codes (pre ++ s :: post) = (pre ++ [s], 1) := by
  induction pre with
  | nil => simp [runChain, hs]
  | cons a rest ih =>
    have ha : codes a = 0 := hpre a (List.mem_cons_self a rest)
    have hrest : ∀ t ∈ rest, codes t = 0 := fun t ht => hpre t (List.mem_cons_of_mem a ht)
    simp [runChain, ha, ih hrest]

/-- C5 counterexample: with plan and build succeeding and the test stage
exiting 1, the `adw_plan_build_test_review` composer still launches the
review phase after the failed test stage and itself exits 0, contradicting
the short-circuit-on-first-failure claim. -/
theorem c5_counterexample :
    (fun st => match st with | Stage.test => 1 | _ => 0 : Stage → Nat) Stage.test ≠ 0
    ∧ adw_plan_build_test_review
        (fun st => match st with | Stage.test => 1 | _ => 0)
      = ([Stage.plan, Stage.build, Stage.test, Stage.review], 0) := by
  exact ⟨by decide, rfl⟩

/-- C5 (amended): every chain-style composer (`adw_sdlc`,
`adw_plan_build_test`, `adw_plan_build_review`, `adw_plan_build_document`)
short-circuits on the first non-zero child exit code — it launches exactly
the stages up to and including the first failing one and exits 1 — while
`adw_plan_build_test_review` short-circuits only on plan and build
failures: once those succeed it runs test and then the review phase
unconditionally and exits 0, even when the test stage failed. -/
theorem c5_amended_short_circuit (codes : Stage → Nat) (s : Stage)
    (pre post : List Stage) (hpre : ∀ t ∈ pre, codes t = 0) (hs : codes s ≠ 0)
    (hplan : codes Stage.plan = 0) (hbuild : codes Stage.build = 0) :
    runChain codes (pre ++ s :: post) = (pre ++ [s], 1)
    ∧ adw_plan_build_test_review codes
        = ([Stage.plan, Stage.build, Stage.test, Stage.review], 0) := by
  refine ⟨runChain_first_fail codes s pre post hpre hs, ?_⟩
  simp [adw_plan_build_test_review, hplan, hbuild]

/-- C5 amended witness: the failing-test scenario instantiated on
`adw_sdlc`'s chain (plan, build succeed; test exits 1). -/
theorem c5_amended_short_circuit_witness :
    runChain (fun st => match st with | Stage.test => 1 | _ => 0)
        ([Stage.plan, Stage.build] ++ Stage.test :: [Stage.review, Stage.document])
      = ([Stage.plan, Stage.build] ++ [Stage.test], 1)
    ∧ adw_plan_build_test_review (fun st => match st with | Stage.test => 1 | _ => 0)
        = ([Stage.plan, Stage.build, Stage.test, Stage.review], 0) :=
  c5_amended_short_circuit (fun st => match st with | Stage.test => 1 | _ => 0)
    Stage.test [Stage.plan, Stage.build] [Stage.review, Stage.document]
    (by decide) (by decide) (by decide) (by decide)

/-! ### Missing-state prologue (adw_review.py 431-448, adw_document.py 219-237)

`ADWState` itself lives in `adw_modules/state.py`, which is not part of the
sources here; only its `load` contract is needed. -/

structure ADWState where
  data : List (String × String)
  deriving DecidableEq, Repr

/-- Modelled from the spec: `adw_modules/state.py` is not among the sources;
per §4.1 of the specification, `load(id)` fails (returns no state) when no
record exists for `id` in the durable store, and otherwise returns the full
mapping. -/
def ADWState.load (store : String → Option (List (String × String)))
    (adw_id : String) : Option ADWState :=
  (store adw_id).map ADWState.mk

/-- Outcome of a stage prologue: exit code if the process exited, whether
any `state.save` happened, and the error lines printed. -/
structure StagePrologue where
  exit : Option Nat
  state_saved : Bool
  errors : List String
  deriving DecidableEq, Repr

/-- adw_review.py main, state-loading step: on a missing state, print the
two error lines and `sys.exit(1)`; no state object exists to save. -/
def adw_review_load_step (loaded : Option ADWState) : StagePrologue :=
  match loaded with
  | some _ => ⟨none, false, []⟩
  | none => ⟨some 1, false,
      ["Error: No state found for ADW ID",
       "Run adw_plan.py first to create the state"]⟩

/-- adw_document.py main, state-loading step. -/
def adw_document_load_step (loaded : Option ADWState) : StagePrologue :=
  match loaded with
  | some _ => ⟨none, false, []⟩
  | none => ⟨some 1, false,
      ["Error: No state found for ADW ID",
       "Run adw_plan_build_test_review.py first to complete the workflow"]⟩

/-- C9: invoking the review or document stage with an `adw_id` for which the
durable store holds no record exits with code 1, prints an explicit error
directing the user to run the plan(-first) workflow, and saves no
partially-initialized state. -/
theorem c9_missing_state_fatal (store : String → Option (List (String × String)))
    (adw_id : String) (h : store adw_id = none) :
    adw_review_load_step (ADWState.load store adw_id)
        = ⟨some 1, false,
            ["Error: No state found for ADW ID",
             "Run adw_plan.py first to create the state"]⟩
    ∧ adw_document_load_step (ADWState.load store adw_id)
        = ⟨some 1, false,
            ["Error: No state found for ADW ID",
             "Run adw_plan_build_test_review.py first to complete the workflow"]⟩ := by
  simp [ADWState.load, adw_review_load_step, adw_document_load_step, h]

/-- C9 witness: an empty store. -/
theorem c9_missing_state_fatal_witness :
    adw_review_load_step (ADWState.load (fun _ => none) "abc12345")
        = ⟨some 1, false,
            ["Error: No state found for ADW ID",
             "Run adw_plan.py first to create the state"]⟩
    ∧ adw_document_load_step (ADWState.load (fun _ => none) "abc12345")
        = ⟨some 1, false,
            ["Error: No state found for ADW ID",
             "Run adw_plan_build_test_review.py first to complete the workflow"]⟩ :=
  c9_missing_state_fatal (fun _ => none) "abc12345" rfl

/-! ### Review data model (adw_modules/data_types.py as used by adw_review.py) -/

inductive Severity where
  | blocker | tech_debt | skippable
  deriving DecidableEq, Repr

structure ReviewIssue where
  review_issue_number : Nat
  screenshot_path : String
  issue_description : String
  issue_resolution : String
  issue_severity : Severity
  deriving DecidableEq, Repr

structure ReviewResult where
  success : Bool
  review_issues : List ReviewIssue
  deriving DecidableEq, Repr

def isBlocker (i : ReviewIssue) : Bool := i.issue_severity == Severity.blocker

/-- `sum(1 for i in review_result.review_issues if i.issue_severity == "blocker")`. -/
def blockerCount (r : ReviewResult) : Nat :=
  r.review_issues.countP isBlocker

/-! ### `resolve_review_issues` (adw_review.py lines 147-260)

The external `create_and_implement_patch` call is an oracle giving, per
blocker position, whether a patch plan file was produced and whether the
implementation response succeeded. -/

structure PatchOutcome where
  patch_file : Option String
  implement_success : Bool
  deriving DecidableEq, Repr

/-- One blocker's contribution to `(resolved_count, failed_count)`:
no patch file → failed; patch file and a successful implementation →
resolved; patch file but failed implementation → failed. -/
def resolveStep (o : PatchOutcome) : Nat × Nat :=
  match o.patch_file with
  | none => (0, 1)
  | some _ => if o.implement_success then (1, 0) else (0, 1)

/-- The `for idx, issue in enumerate(blocker_issues)` loop: each finding is
processed independently, in order, regardless of earlier outcomes. -/
def resolveGo (outcomes : Nat → PatchOutcome) (idx : Nat) :
    List ReviewIssue → Nat × Nat
  | [] => (0, 0)
  | _ :: rest =>
    let s := resolveStep (outcomes idx)
    let r := resolveGo outcomes (idx + 1) rest
    (s.1 + r.1, s.2 + r.2)

def resolve_review_issues (review_issues : List ReviewIssue)
    (outcomes : Nat → PatchOutcome) : Nat × Nat :=
  let blocker_issues := review_issues.filter isBlocker
  if blocker_issues.isEmpty then (0, 0)
  else resolveGo outcomes 0 blocker_issues

theorem resolveStep_sum (o : PatchOutcome) :
    (resolveStep o).1 + (resolveStep o).2 = 1 := by
  unfold resolveStep
  cases o.patch_file with
  | none => rfl
  | some f =>
    by_cases h : o.implement_success
    · simp [h]
    · simp [h]

theorem resolveGo_sum (outcomes : Nat → PatchOutcome) (idx : Nat)
    (l : List ReviewIssue) :
    (resolveGo outcomes idx l).1 + (resolveGo outcomes idx l).2 = l.length := by
  induction l generalizing idx with
  | nil => rfl
  | cons a rest ih =>
    simp only [resolveGo, List.length_cons]
    have := resolveStep_sum (outcomes idx)
    have := ih (idx + 1)
    omega

/-- C7: `resolve_review_issues` processes exactly the blocker-severity
findings, in the order the review emitted them (its result coincides with
running the per-finding loop directly on the blocker sublist), each finding
contributes exactly one unit to either count regardless of other findings'
outcomes, and the returned pair sums to the number of blocker findings. -/
theorem c7_resolve_blockers_in_order (review_issues : List ReviewIssue)
    (outcomes : Nat → PatchOutcome) :
    (resolve_review_issues review_issues outcomes).1
        + (resolve_review_issues review_issues outcomes).2
      = (review_issues.filter isBlocker).length
    ∧ resolve_review_issues review_issues outcomes
        = resolve_review_issues (review_issues.filter isBlocker) outcomes
    ∧ ∀ (i : ReviewIssue) (rest : List ReviewIssue) (idx : Nat),
        resolveGo outcomes idx (i :: rest)
          = ((resolveStep (outcomes idx)).1 + (resolveGo outcomes (idx + 1) rest).1,
             (resolveStep (outcomes idx)).2 + (resolveGo outcomes (idx + 1) rest).2) := by
  refine ⟨?_, ?_, fun i rest idx => rfl⟩
  · unfold resolve_review_issues
    by_cases h : (review_issues.filter isBlocker).isEmpty
    · simp [h, List.isEmpty_iff.mp h]
    · simp only [h, if_false]
      exact resolveGo_sum outcomes 0 _
  · unfold resolve_review_issues
    rw [List.filter_filter]
    simp

/-! ### The review/resolution retry loop (adw_review.py main, lines 513-661)

Oracles: `reviews k` is the `ReviewResult` produced by `run_review` on
attempt `k` (1-based), and `outcomes k` the per-attempt patch oracle fed to
`resolve_review_issues`.  One `IterationRecord` is produced per executed
review attempt; `resolution` is `some (resolved, failed)` when the
resolution workflow ran in that iteration, and `commit_attempted` records
whether the resolution-commit branch (`resolved_count > 0`) was taken. -/

def MAX_REVIEW_RETRY_ATTEMPTS : Nat := 3

structure IterationRecord where
  attempt : Nat
  result : ReviewResult
  resolution : Option (Nat × Nat)
  commit_attempted : Bool
  deriving DecidableEq, Repr

/-- The `while attempt < max_attempts` loop body; the fuel argument is the
number of remaining permitted attempts `max_attempts - attempt`, so the
while condition is exactly `fuel > 0`. -/
def loopGo (skip : Bool) (maxA : Nat) (reviews : Nat → ReviewResult)
    (outcomes : Nat → Nat → PatchOutcome) (attempt : Nat) :
    Nat → List IterationRecord
  | 0 => []
  | fuel + 1 =>
    let a := attempt + 1
    let r := reviews a
    if r.success then [⟨a, r, none, false⟩]
    else if a = maxA ∨ blockerCount r = 0 ∨ skip = true then [⟨a, r, none, false⟩]
    else
      let rc := resolve_review_issues r.review_issues (outcomes a)
      if 0 < rc.1 then ⟨a, r, some rc, true⟩ :: loopGo skip maxA reviews outcomes a fuel
      else [⟨a, r, some rc, false⟩]

/-- `attempt = 0; max_attempts = MAX_REVIEW_RETRY_ATTEMPTS if not
skip_resolution else 1; while attempt < max_attempts: ...`. -/
def reviewLoopIterations (skip : Bool) (reviews : Nat → ReviewResult)
    (outcomes : Nat → Nat → PatchOutcome) : List IterationRecord :=
  let maxA := if skip then 1 else MAX_REVIEW_RETRY_ATTEMPTS
  loopGo skip maxA reviews outcomes 0 maxA

/-! ### Tail sequence of adw_review.py main (lines 681-746) -/

inductive TailEvent where
  | createCommit
  | commitChanges
  | finalizeGit
  | saveState (tag : String)
  | stdoutState
  deriving DecidableEq, Repr

/-- After the loop: build the review commit message (exit 1 on error),
commit (exit 1 on failure), push/update the PR, save the state tagged
`"adw_review"`, emit the state to stdout, then exit 1 iff the final review
result still failed with at least one blocker. -/
def mainTail (final : ReviewResult) (createErr : Option String) (commitOk : Bool) :
    List TailEvent × Nat :=
  match createErr with
  | some _ => ([TailEvent.createCommit], 1)
  | none =>
    if commitOk then
      let evs := [TailEvent.createCommit, TailEvent.commitChanges,
        TailEvent.finalizeGit, TailEvent.saveState "adw_review",
        TailEvent.stdoutState]
      if final.success then (evs, 0)
      else if 0 < blockerCount final then (evs, 1)
      else (evs, 0)
    else ([TailEvent.createCommit, TailEvent.commitChanges], 1)

def defaultReviewResult : ReviewResult := ⟨true, []⟩

/-- `review_result` after the loop is that of the last executed attempt
(the loop always runs at least once since `max_attempts ≥ 1`). -/
def finalReview (iters : List IterationRecord) : ReviewResult :=
  match iters.getLast? with
  | some rec => rec.result
  | none => defaultReviewResult

/-- adw_review.py main, from the retry loop to the exit code. -/
def adwReviewRun (skip : Bool) (reviews : Nat → ReviewResult)
    (outcomes : Nat → Nat → PatchOutcome) (createErr : Option String)
    (commitOk : Bool) : List IterationRecord × List TailEvent × Nat :=
  let iters := reviewLoopIterations skip reviews outcomes
  let t := mainTail (finalReview iters) createErr commitOk
  (iters, t.1, t.2)

/-! Step lemmas for the loop body. -/

theorem loopGo_stop_success (skip : Bool) (maxA : Nat) (reviews : Nat → ReviewResult)
    (outcomes : Nat → Nat → PatchOutcome) (attempt fuel : Nat)
    (hs : (reviews (attempt + 1)).success = true) :
    loopGo skip maxA reviews outcomes attempt (fuel + 1)
      = [⟨attempt + 1, reviews (attempt + 1), none, false⟩] := by
  simp [loopGo, hs]

theorem loopGo_stop_terminal (skip : Bool) (maxA : Nat) (reviews : Nat → ReviewResult)
    (outcomes : Nat → Nat → PatchOutcome) (attempt fuel : Nat)
    (hs : (reviews (attempt + 1)).success = false)
    (hstop : attempt + 1 = maxA ∨ blockerCount (reviews (attempt + 1)) = 0 ∨ skip = true) :
    loopGo skip maxA reviews outcomes attempt (fuel + 1)
      = [⟨attempt + 1, reviews (attempt + 1), none, false⟩] := by
  simp only [loopGo]
  rw [if_neg (by simp [hs]), if_pos hstop]

theorem loopGo_resolution (skip : Bool) (maxA : Nat) (reviews : Nat → ReviewResult)
    (outcomes : Nat → Nat → PatchOutcome) (attempt fuel : Nat)
    (hs : (reviews (attempt + 1)).success = false)
    (hb : blockerCount (reviews (attempt + 1)) ≠ 0)
    (hm : attempt + 1 ≠ maxA)
    (hsk : skip = false) :
    loopGo skip maxA reviews outcomes attempt (fuel + 1)
      = (if 0 < (resolve_review_issues (reviews (attempt + 1)).review_issues
              (outcomes (attempt + 1))).1 then
          ⟨attempt + 1, reviews (attempt + 1),
            some (resolve_review_issues (reviews (attempt + 1)).review_issues
              (outcomes (attempt + 1))), true⟩
            :: loopGo skip maxA reviews outcomes (attempt + 1) fuel
        else
          [⟨attempt + 1, reviews (attempt + 1),
            some (resolve_review_issues (reviews (attempt + 1)).review_issues
              (outcomes (attempt + 1))), false⟩]) := by
  subst hsk
  simp only [loopGo]
  rw [if_neg (by simp [hs]), if_neg (by simp [hm, hb])]

/-! Concrete oracle instances used by the witnesses. -/

def cBlockerIssue : ReviewIssue :=
  ⟨1, "", "button does not submit", "wire up the handler", Severity.blocker⟩

def cTechDebtIssue : ReviewIssue :=
  ⟨1, "", "duplicated helper", "extract a module", Severity.tech_debt⟩

def cFailingReviews : Nat → ReviewResult := fun _ => ⟨false, [cBlockerIssue]⟩

def cTechDebtReviews : Nat → ReviewResult := fun _ => ⟨false, [cTechDebtIssue]⟩

def cGoodOutcomes : Nat → Nat → PatchOutcome := fun _ _ => ⟨some "patch.md", true⟩

def cNoProgressOutcomes : Nat → Nat → PatchOutcome := fun _ _ => ⟨none, false⟩

/-- C1: when every review attempt fails with at least one blocker finding
and every resolution pass resolves at least one of them, the retry loop
executes exactly `MAX_REVIEW_RETRY_ATTEMPTS` (3) review attempts and then
terminates; no fourth attempt is run. -/
theorem c1_retry_ceiling (reviews : Nat → ReviewResult)
    (outcomes : Nat → Nat → PatchOutcome)
    (hfail : ∀ k, (reviews k).success = false)
    (hblock : ∀ k, blockerCount (reviews k) ≠ 0)
    (hres : ∀ k,
      0 < (resolve_review_issues (reviews k).review_issues (outcomes k)).1) :
    (reviewLoopIterations false reviews outcomes).length
      = MAX_REVIEW_RETRY_ATTEMPTS := by
  have h1 := loopGo_resolution false 3 reviews outcomes 0 2 (hfail 1) (hblock 1)
    (by decide) rfl
  rw [if_pos (hres 1)] at h1
  have h2 := loopGo_resolution false 3 reviews outcomes 1 1 (hfail 2) (hblock 2)
    (by decide) rfl
  rw [if_pos (hres 2)] at h2
  have h3 := loopGo_stop_terminal false 3 reviews outcomes 2 0 (hfail 3) (Or.inl rfl)
  show (loopGo false 3 reviews outcomes 0 3).length = 3
  simp [h1, h2, h3]

/-- C1 witness: a review that always reports one blocker and a patch oracle
that always resolves it. -/
theorem c1_retry_ceiling_witness :
    (reviewLoopIterations false cFailingReviews cGoodOutcomes).length
      = MAX_REVIEW_RETRY_ATTEMPTS :=
  c1_retry_ceiling cFailingReviews cGoodOutcomes (fun _ => rfl)
    (fun _ => of_decide_eq_true rfl) (fun _ => of_decide_eq_true rfl)

/-- C2: in an iteration with a failed review, `N > 0` blockers and attempts
remaining, the loop stops right after resolution when it resolved zero
blockers (no re-review); a re-review happens exactly when at least one
blocker was resolved, in which case the resolution-commit branch is taken
(`commit_attempted = true`) before the next attempt. -/
theorem c2_no_progress_short_circuit (maxA : Nat) (reviews : Nat → ReviewResult)
    (outcomes : Nat → Nat → PatchOutcome) (attempt fuel : Nat)
    (hs : (reviews (attempt + 1)).success = false)
    (hb : blockerCount (reviews (attempt + 1)) ≠ 0)
    (hm : attempt + 1 ≠ maxA) :
    ((resolve_review_issues (reviews (attempt + 1)).review_issues
        (outcomes (attempt + 1))).1 = 0 →
      loopGo false maxA reviews outcomes attempt (fuel + 1)
        = [⟨attempt + 1, reviews (attempt + 1),
            some (resolve_review_issues (reviews (attempt + 1)).review_issues
              (outcomes (attempt + 1))), false⟩])
    ∧ (0 < (resolve_review_issues (reviews (attempt + 1)).review_issues
        (outcomes (attempt + 1))).1 →
      loopGo false maxA reviews outcomes attempt (fuel + 1)
        = ⟨attempt + 1, reviews (attempt + 1),
            some (resolve_review_issues (reviews (attempt + 1)).review_issues
              (outcomes (attempt + 1))), true⟩
          :: loopGo false maxA reviews outcomes (attempt + 1) fuel) := by
  have h := loopGo_resolution false maxA reviews outcomes attempt fuel hs hb hm rfl
  constructor
  · intro h0
    rw [h, if_neg (by omega)]
  · intro hpos
    rw [h, if_pos hpos]

/-- C2 witness: one blocker, patch-plan creation fails, zero resolved — the
loop ends after the single resolution iteration with no re-review. -/
theorem c2_no_progress_short_circuit_witness :
    loopGo false 3 cFailingReviews cNoProgressOutcomes 0 (2 + 1)
      = [⟨1, cFailingReviews 1, some (0, 1), false⟩] :=
  ((c2_no_progress_short_circuit 3 cFailingReviews cNoProgressOutcomes 0 2 rfl
      (by decide) (by decide)).1 (by decide)).trans (by decide)

/-- C3: a failed review result with zero blockers but a non-empty findings
list is terminal: the loop stops after that attempt with the resolution
workflow never entered, and — with the tail commit steps succeeding — the
process runs its full tail and exits 0. -/
theorem c3_non_blocker_pass_through (reviews : Nat → ReviewResult)
    (outcomes : Nat → Nat → PatchOutcome)
    (hs : (reviews 1).success = false)
    (hb : blockerCount (reviews 1) = 0)
    (_hne : (reviews 1).review_issues ≠ []) :
    adwReviewRun false reviews outcomes none true
      = ([⟨1, reviews 1, none, false⟩],
         [TailEvent.createCommit, TailEvent.commitChanges, TailEvent.finalizeGit,
          TailEvent.saveState "adw_review", TailEvent.stdoutState], 0) := by
  have hloop : reviewLoopIterations false reviews outcomes
      = [⟨1, reviews 1, none, false⟩] := by
    show loopGo false 3 reviews outcomes 0 3 = _
    exact loopGo_stop_terminal false 3 reviews outcomes 0 2 hs (Or.inr (Or.inl hb))
  have hfin : finalReview [(⟨1, reviews 1, none, false⟩ : IterationRecord)]
      = reviews 1 := rfl
  simp only [adwReviewRun, hloop, hfin, mainTail, hs]
  simp [hb]

/-- C3 witness: one tech_debt finding, no blockers. -/
theorem c3_non_blocker_pass_through_witness :
    adwReviewRun false cTechDebtReviews cGoodOutcomes none true
      = ([⟨1, cTechDebtReviews 1, none, false⟩],
         [TailEvent.createCommit, TailEvent.commitChanges, TailEvent.finalizeGit,
          TailEvent.saveState "adw_review", TailEvent.stdoutState], 0) :=
  c3_non_blocker_pass_through cTechDebtReviews cGoodOutcomes rfl (by decide)
    (by decide)

/-- C10: when the final review result still fails with blockers and the
commit steps succeed, the tail of main performs the whole side-effect
sequence — review commit message, commit, push/PR finalization, state save
tagged `"adw_review"`, state to stdout — and only then exits with code 1. -/
theorem c10_failed_review_full_tail (final : ReviewResult)
    (hs : final.success = false) (hb : 0 < blockerCount final) :
    mainTail final none true
      = ([TailEvent.createCommit, TailEvent.commitChanges, TailEvent.finalizeGit,
          TailEvent.saveState "adw_review", TailEvent.stdoutState], 1) := by
  simp [mainTail, hs, hb]

/-- C10 witness: a final result with one blocker finding. -/
theorem c10_failed_review_full_tail_witness :
    mainTail ⟨false, [cBlockerIssue]⟩ none true
      = ([TailEvent.createCommit, TailEvent.commitChanges, TailEvent.finalizeGit,
          TailEvent.saveState "adw_review", TailEvent.stdoutState], 1) :=
  c10_failed_review_full_tail ⟨false, [cBlockerIssue]⟩ rfl (by decide)

end Tac6
